import Mathlib

/-!
Verification of the newsletter CRUD service.

Shallow embedding of `server/app.py` (Flask-RESTful resource layer with a
Marshmallow serialization schema) and `server/seed.py` (seed utility).
The SQLAlchemy model module (`models.py`) is imported by both scripts but is
not part of the sources here; the `Newsletter` record and the id counter are
modelled from the spec's data-model section where noted.
-/

/-- A value stored in a model attribute: strings (all form data arrives as
strings), integers (server-assigned ids) and timestamps (server-assigned
`published_at`).  Keeping the three shapes distinct records whether a value
was server-assigned or written verbatim from a request. -/
inductive Value where
  | str (s : String)
  | int (n : Nat)
  | time (t : Nat)
  deriving DecidableEq, Repr

/-- Modelled from the spec: the `Newsletter` model of `models.py` (not in
the sources).  Columns per the spec's data-model table: `id` (integer,
auto-assigned primary key), `title` (text), `body` (text), `published_at`
(timestamp, server-assigned default at creation).  `extra` holds Python
instance attributes created by `setattr` under names that are not mapped
columns (the patch handler assigns attribute names without an allow-list). -/
structure Newsletter where
  id : Value
  title : Value
  body : Value
  published_at : Value
  extra : List (String × Value) := []
  deriving DecidableEq, Repr

/-- The persisted table plus the auto-increment counter for `id`
(modelled from the spec: ids are auto-assigned and unique). -/
structure DB where
  rows : List Newsletter
  nextId : Nat
  deriving DecidableEq, Repr

/-- JSON values as produced by the serialization layer. -/
inductive Json where
  | jstr (s : String)
  | jnum (n : Nat)
  | jobj (fields : List (String × Json))
  | jarr (items : List Json)

/-- An HTTP response: a JSON body plus a status code. -/
structure Response where
  body : Json
  status : Nat

/-- Python `setattr` on a model instance, as used by the patch handler: the
four mapped columns are ordinary attributes; any other name becomes a plain
instance attribute. -/
def Newsletter.setattr (n : Newsletter) (a : String) (v : Value) : Newsletter :=
  if a = "id" then { n with id := v }
  else if a = "title" then { n with title := v }
  else if a = "body" then { n with body := v }
  else if a = "published_at" then { n with published_at := v }
  else { n with extra := (a, v) :: n.extra.filter (fun p => p.1 != a) }

/-- Python `getattr` on a model instance (`none` when the attribute does not
exist). -/
def Newsletter.getattr (n : Newsletter) (a : String) : Option Value :=
  if a = "id" then some n.id
  else if a = "title" then some n.title
  else if a = "body" then some n.body
  else if a = "published_at" then some n.published_at
  else n.extra.lookup a

/-- Text of a value when interpolated into a hyperlink. -/
def Value.text : Value → String
  | .str s => s
  | .int n => toString n
  | .time t => toString t

/-- JSON rendering of a stored value (a Marshmallow field dump). -/
def Value.toJson : Value → Json
  | .str s => .jstr s
  | .int n => .jnum n
  | .time t => .jstr (toString t)

/-- `NewsletterSchema.dump` from `app.py`: the schema declares exactly the
fields `title`, `published_at` and the `url` Hyperlinks field (a `self` link
built from the row's id and the `collection` link); `id` and `body` are not
declared, so they are not dumped. -/
def NewsletterSchema.dump (n : Newsletter) : Json :=
  .jobj [("title", n.title.toJson),
         ("published_at", n.published_at.toJson),
         ("url", .jobj [("self", .jstr ("/newsletters/" ++ n.id.text)),
                        ("collection", .jstr "/newsletters")])]

/-- Keys of a JSON object (empty for non-objects). -/
def Json.keys : Json → List String
  | .jobj fs => fs.map Prod.fst
  | _ => []

/-- Field access on a JSON object. -/
def Json.get : Json → String → Option Json
  | .jobj fs, k => fs.lookup k
  | _, _ => none

/-- `Index.get`: the static welcome payload, 200. -/
def index_get : Response :=
  { body := .jobj [("index", .jstr "Welcome to the Newsletter RESTful API")],
    status := 200 }

/-- `Newsletter.query.filter_by(id=id).first()`: the first row whose id
column equals the integer `i`. -/
def firstById : List Newsletter → Nat → Option Newsletter
  | [], _ => none
  | r :: rs, i => if r.id = Value.int i then some r else firstById rs i

/-- `Newsletters.get`: every row dumped through the schema, 200. -/
def newsletters_get (db : DB) : Response :=
  { body := .jarr (db.rows.map NewsletterSchema.dump), status := 200 }

/-- The row built by `Newsletters.post`: `title` and `body` from the form,
`id` and `published_at` assigned server-side at commit (the id from the
auto-increment counter, the timestamp from the server clock `now`;
both modelled from the spec, the column defaults live in `models.py`). -/
def freshRow (db : DB) (now : Nat) (t b : String) : Newsletter :=
  { id := .int db.nextId, title := .str t, body := .str b,
    published_at := .time now }

/-- `Newsletters.post`: reads `request.form['title']` and
`request.form['body']` (a missing key raises the framework's key-lookup
error before anything is persisted), builds the row, commits, and returns
the dumped row with 201.  On error the table is unchanged. -/
def newsletters_post (db : DB) (now : Nat) (form : List (String × String)) :
    DB × Except String Response :=
  match form.lookup "title", form.lookup "body" with
  | some t, some b =>
      ({ rows := db.rows ++ [freshRow db now t b], nextId := db.nextId + 1 },
       .ok { body := NewsletterSchema.dump (freshRow db now t b), status := 201 })
  | _, _ => (db, .error "BadRequestKeyError")

/-- `NewsletterByID.get`: the code hands the looked-up record straight to
the serializer; when the record is absent that path is undefined by design
(no not-found handling), modelled as an error. -/
def newsletter_by_id_get (db : DB) (i : Nat) : Except String Response :=
  match firstById db.rows i with
  | some r => .ok { body := NewsletterSchema.dump r, status := 200 }
  | none => .error "absent record handed to the serializer"

/-- The patch loop `for attr in request.form: setattr(newsletter, attr,
request.form[attr])`: the form is a multi-dict, so iteration yields each key
once and indexing returns the first value submitted under that key; `seen`
tracks the keys already yielded. -/
def patchLoop : Newsletter → List (String × String) → List String → Newsletter
  | r, [], _ => r
  | r, (k, v) :: rest, seen =>
      if k ∈ seen then patchLoop r rest seen
      else patchLoop (r.setattr k (.str v)) rest (k :: seen)

/-- All form attributes assigned onto a row (the whole patch loop). -/
def patchApply (r : Newsletter) (form : List (String × String)) : Newsletter :=
  patchLoop r form []

/-- Commit of a mutation to the row found by `first()`: the first row whose
id column equals `i` is replaced by the mutated object. -/
def updateFirstById : List Newsletter → Nat → Newsletter → List Newsletter
  | [], _, _ => []
  | r :: rs, i, q => if r.id = Value.int i then q :: rs else r :: updateFirstById rs i q

/-- `NewsletterByID.patch`: looks the row up by id, assigns every submitted
form attribute onto it by name, commits, and returns the dumped row with
200.  When no row matches, the very first attribute assignment (or the
session add) is performed on `None` and raises; the table is unchanged. -/
def newsletter_by_id_patch (db : DB) (i : Nat) (form : List (String × String)) :
    DB × Except String Response :=
  match firstById db.rows i with
  | none => (db, .error "attribute assignment on a missing record")
  | some r =>
      ({ db with rows := updateFirstById db.rows i (patchApply r form) },
       .ok { body := NewsletterSchema.dump (patchApply r form), status := 200 })

/-- Deletion commit: the first row whose id column equals `i` is removed. -/
def removeFirstById : List Newsletter → Nat → List Newsletter
  | [], _ => []
  | r :: rs, i => if r.id = Value.int i then rs else r :: removeFirstById rs i

/-- `NewsletterByID.delete`: looks the row up by id and hands the result to
`db.session.delete`.  When no row matches, `session.delete(None)` raises the
mapper error (None is not a mapped instance), so no success response is
produced and the table is unchanged; otherwise the row is removed and the
static confirmation message is returned with 200. -/
def newsletter_by_id_delete (db : DB) (i : Nat) :
    DB × Except String Response :=
  match firstById db.rows i with
  | none => (db, .error "UnmappedInstanceError: None is not mapped")
  | some _ =>
      ({ db with rows := removeFirstById db.rows i },
       .ok { body := .jobj [("message", .jstr "record successfully deleted")],
             status := 200 })

/-- `seed.py`: deletes every existing row, generates 50 rows whose `title`
and `body` come from the fake-text generators `fT` and `fB`, bulk-adds them
and commits once.  Ids are auto-assigned from the counter and
`published_at` takes the server default (modelled from the spec). -/
def seed (db : DB) (fT fB : Nat → String) (now : Nat) : DB :=
  { rows := (List.range 50).map (fun i =>
      { id := .int (db.nextId + i), title := .str (fT i),
        body := .str (fB i), published_at := .time now }),
    nextId := db.nextId + 50 }

/-- Bound check of a stored id against the auto-increment counter. -/
def Value.idOk : Value → Nat → Bool
  | .int n, k => n < k
  | _, _ => true

/-- Every integer id in the table is below the auto-increment counter; this
holds of every state the server or the seed utility produces. -/
def idsBelow (db : DB) : Bool :=
  db.rows.all (fun r => r.id.idOk db.nextId)

/-- A concrete row used as test fixture. -/
def row1 : Newsletter :=
  { id := .int 1, title := .str "issue one", body := .str "hello",
    published_at := .time 5 }

/-- A second concrete row used as test fixture. -/
def row2 : Newsletter :=
  { id := .int 2, title := .str "issue two", body := .str "world",
    published_at := .time 6 }

/-- An empty table. -/
def db0 : DB := { rows := [], nextId := 1 }

/-- A one-row table. -/
def db1 : DB := { rows := [row1], nextId := 2 }

/-- A two-row table. -/
def db2 : DB := { rows := [row1, row2], nextId := 3 }

/-! ## Lemmas about the lookup, update and removal helpers -/

theorem firstById_eq_none {rows : List Newsletter} {i : Nat} :
    firstById rows i = none ↔ ∀ r ∈ rows, r.id ≠ Value.int i := by
  induction rows with
  | nil => simp [firstById]
  | cons r rs ih =>
      by_cases h : r.id = Value.int i
      · simp [firstById, h]
      · simp [firstById, h, ih]

theorem firstById_of_mem {rows : List Newsletter} {i : Nat} {r : Newsletter}
    (hr : r ∈ rows) (hid : r.id = Value.int i) :
    ∃ q, firstById rows i = some q := by
  induction rows with
  | nil => cases hr
  | cons a rs ih =>
      by_cases h : a.id = Value.int i
      · exact ⟨a, by simp [firstById, h]⟩
      · rcases List.mem_cons.mp hr with h' | h'
        · exact absurd (h' ▸ hid) h
        · rcases ih h' with ⟨q, hq⟩
          exact ⟨q, by simp [firstById, h, hq]⟩

theorem firstById_some {rows : List Newsletter} {i : Nat} {r : Newsletter}
    (h : firstById rows i = some r) : r ∈ rows ∧ r.id = Value.int i := by
  induction rows with
  | nil => simp [firstById] at h
  | cons a rs ih =>
      by_cases ha : a.id = Value.int i
      · simp [firstById, ha] at h
        exact ⟨by simp [h], h ▸ ha⟩
      · simp [firstById, ha] at h
        rcases ih h with ⟨hm, hid⟩
        exact ⟨List.mem_cons_of_mem _ hm, hid⟩

/-- The table splits around the row found by `first()`, with no earlier
match; updating and removing act on exactly that position. -/
theorem firstById_split {rows : List Newsletter} {i : Nat} {r : Newsletter}
    (h : firstById rows i = some r) :
    ∃ pre post, rows = pre ++ r :: post ∧ (∀ q ∈ pre, q.id ≠ Value.int i) ∧
      (∀ q, updateFirstById rows i q = pre ++ q :: post) ∧
      removeFirstById rows i = pre ++ post := by
  induction rows with
  | nil => simp [firstById] at h
  | cons a rs ih =>
      by_cases ha : a.id = Value.int i
      · simp [firstById, ha] at h
        refine ⟨[], rs, by simp [h], by simp, ?_, ?_⟩
        · intro q; simp [updateFirstById, ha]
        · simp [removeFirstById, ha]
      · simp [firstById, ha] at h
        rcases ih h with ⟨pre, post, hrows, hpre, hupd, hrem⟩
        refine ⟨a :: pre, post, by simp [hrows], ?_, ?_, ?_⟩
        · intro q hq
          rcases List.mem_cons.mp hq with h' | h'
          · exact h' ▸ ha
          · exact hpre q h'
        · intro q; simp [updateFirstById, ha, hupd q]
        · simp [removeFirstById, ha, hrem]

/-! ## Lemmas about attribute assignment -/

theorem setattr_getattr_self (r : Newsletter) (k : String) (v : Value) :
    (r.setattr k v).getattr k = some v := by
  by_cases h1 : k = "id"
  · simp [Newsletter.setattr, Newsletter.getattr, h1]
  · by_cases h2 : k = "title"
    · simp [Newsletter.setattr, Newsletter.getattr, h1, h2]
    · by_cases h3 : k = "body"
      · simp [Newsletter.setattr, Newsletter.getattr, h1, h2, h3]
      · by_cases h4 : k = "published_at"
        · simp [Newsletter.setattr, Newsletter.getattr, h1, h2, h3, h4]
        · simp [Newsletter.setattr, Newsletter.getattr, h1, h2, h3, h4,
                List.lookup]

theorem lookup_filter_ne {α : Type} (l : List (String × α)) (k k' : String)
    (h : k ≠ k') :
    (l.filter (fun p => p.1 != k')).lookup k = l.lookup k := by
  induction l with
  | nil => simp
  | cons p ps ih =>
      by_cases hp : p.1 = k'
      · have hfil : (p.1 != k') = false := by simp [hp]
        have hk : (k == p.1) = false := by
          refine beq_eq_false_iff_ne.mpr ?_
          rw [hp]; exact h
        simp [List.filter, hfil, List.lookup, hk, ih]
      · have hfil : (p.1 != k') = true := bne_iff_ne.mpr hp
        by_cases hk : k = p.1
        · have hk' : (k == p.1) = true := beq_iff_eq.mpr hk
          simp [List.filter, hfil, List.lookup, hk']
        · have hk' : (k == p.1) = false := beq_eq_false_iff_ne.mpr hk
          simp [List.filter, hfil, List.lookup, hk', ih]

theorem setattr_getattr_ne (r : Newsletter) (k k' : String) (v : Value)
    (h : k ≠ k') :
    (r.setattr k' v).getattr k = r.getattr k := by
  by_cases h1 : k' = "id"
  · subst h1; simp [Newsletter.setattr, Newsletter.getattr, h]
  · by_cases h2 : k' = "title"
    · subst h2; simp [Newsletter.setattr, Newsletter.getattr, h]
    · by_cases h3 : k' = "body"
      · subst h3; simp [Newsletter.setattr, Newsletter.getattr, h]
      · by_cases h4 : k' = "published_at"
        · subst h4; simp [Newsletter.setattr, Newsletter.getattr, h]
        · have hbeq : (k == k') = false := beq_eq_false_iff_ne.mpr h
          unfold Newsletter.setattr
          rw [if_neg h1, if_neg h2, if_neg h3, if_neg h4]
          unfold Newsletter.getattr
          split_ifs <;>
            simp [List.lookup, hbeq, lookup_filter_ne r.extra k k' h]

theorem setattr_id_ne (r : Newsletter) (k : String) (v : Value)
    (h : k ≠ "id") : (r.setattr k v).id = r.id := by
  unfold Newsletter.setattr
  rw [if_neg h]; split_ifs <;> rfl

/-! ## Lemmas about the patch loop -/

theorem patchLoop_getattr_ne (r : Newsletter) (form : List (String × String))
    (seen : List String) (k : String) (h : ∀ p ∈ form, p.1 ≠ k) :
    (patchLoop r form seen).getattr k = r.getattr k := by
  induction form generalizing r seen with
  | nil => rfl
  | cons q rest ih =>
      obtain ⟨k1, v1⟩ := q
      by_cases hs : k1 ∈ seen
      · rw [patchLoop, if_pos hs]
        exact ih r seen (fun p hp => h p (List.mem_cons_of_mem _ hp))
      · rw [patchLoop, if_neg hs]
        rw [ih _ _ (fun p hp => h p (List.mem_cons_of_mem _ hp))]
        exact setattr_getattr_ne r k k1 _
          (Ne.symm (h (k1, v1) (List.mem_cons_self _ _)))

theorem patchLoop_id (r : Newsletter) (form : List (String × String))
    (seen : List String) (h : ∀ p ∈ form, p.1 ≠ "id") :
    (patchLoop r form seen).id = r.id := by
  induction form generalizing r seen with
  | nil => rfl
  | cons q rest ih =>
      obtain ⟨k1, v1⟩ := q
      by_cases hs : k1 ∈ seen
      · rw [patchLoop, if_pos hs]
        exact ih r seen (fun p hp => h p (List.mem_cons_of_mem _ hp))
      · rw [patchLoop, if_neg hs]
        rw [ih _ _ (fun p hp => h p (List.mem_cons_of_mem _ hp))]
        exact setattr_id_ne r k1 _ (h (k1, v1) (List.mem_cons_self _ _))

theorem patchLoop_getattr_mem (r : Newsletter) (form : List (String × String))
    (seen : List String) (hnd : (form.map Prod.fst).Nodup)
    (hseen : ∀ p ∈ form, p.1 ∉ seen) :
    ∀ p ∈ form, (patchLoop r form seen).getattr p.1 = some (Value.str p.2) := by
  induction form generalizing r seen with
  | nil => intro p hp; cases hp
  | cons q rest ih =>
      obtain ⟨k, v⟩ := q
      have hks : k ∉ seen := hseen (k, v) (List.mem_cons_self _ _)
      have hnd' : k ∉ rest.map Prod.fst ∧ (rest.map Prod.fst).Nodup := by
        rw [List.map_cons] at hnd; exact List.nodup_cons.mp hnd
      intro p hp
      rw [patchLoop, if_neg hks]
      rcases List.mem_cons.mp hp with h' | h'
      · subst h'
        have hrest : ∀ q ∈ rest, q.1 ≠ k := by
          intro q hq he
          exact hnd'.1 (he ▸ List.mem_map_of_mem Prod.fst hq)
        rw [patchLoop_getattr_ne _ rest _ k hrest]
        exact setattr_getattr_self r k (Value.str v)
      · refine ih _ _ hnd'.2 ?_ p h'
        intro q hq
        have hq1 : q.1 ≠ k := fun he =>
          hnd'.1 (he ▸ List.mem_map_of_mem Prod.fst hq)
        have hq2 : q.1 ∉ seen := hseen q (List.mem_cons_of_mem _ hq)
        simp [hq1, hq2]

/-- With no duplicate keys, the patch loop stores under every submitted
attribute name exactly the submitted value. -/
theorem patchApply_getattr (r : Newsletter) (form : List (String × String))
    (hnd : (form.map Prod.fst).Nodup) :
    ∀ p ∈ form, (patchApply r form).getattr p.1 = some (Value.str p.2) :=
  patchLoop_getattr_mem r form [] hnd (by simp)

theorem patchApply_id (r : Newsletter) (form : List (String × String))
    (h : ∀ p ∈ form, p.1 ≠ "id") : (patchApply r form).id = r.id :=
  patchLoop_id r form [] h

/-! ## Claims -/

/-- C1, counterexample: DELETE on an id with no row does not return the
static success message — the lookup yields an absent record,
`session.delete` raises on it, and the table is unchanged.  This refutes
"returns the body with status 200 regardless of whether a row existed". -/
theorem C1_counterexample :
    newsletter_by_id_delete db0 1 =
      (db0, Except.error "UnmappedInstanceError: None is not mapped") ∧
    (newsletter_by_id_delete db0 1).2 ≠
      Except.ok { body := Json.jobj [("message", Json.jstr "record successfully deleted")],
                  status := 200 } :=
  ⟨rfl, fun h => nomatch h⟩

/-- C1 (amended): DELETE returns the static confirmation body with status
200 exactly when a row with that id exists, removing the first such row;
when no row exists, `session.delete` is handed the absent record and raises
the mapper error, so the same success message is NOT returned and the table
is unchanged. -/
theorem C1_delete_status (db : DB) (i : Nat) :
    ((∃ r ∈ db.rows, r.id = Value.int i) →
      newsletter_by_id_delete db i =
        ({ db with rows := removeFirstById db.rows i },
         Except.ok { body := Json.jobj [("message",
                       Json.jstr "record successfully deleted")],
                     status := 200 })) ∧
    ((∀ r ∈ db.rows, r.id ≠ Value.int i) →
      newsletter_by_id_delete db i =
        (db, Except.error "UnmappedInstanceError: None is not mapped")) := by
  constructor
  · rintro ⟨r, hr, hid⟩
    rcases firstById_of_mem hr hid with ⟨q, hq⟩
    simp [newsletter_by_id_delete, hq]
  · intro h
    simp [newsletter_by_id_delete, firstById_eq_none.mpr h]

/-- C1 witness: deleting the one existing row of `db1` yields the success
message and removes the row. -/
theorem C1_delete_status_witness :
    newsletter_by_id_delete db1 1 =
      ({ db1 with rows := removeFirstById db1.rows 1 },
       Except.ok { body := Json.jobj [("message",
                     Json.jstr "record successfully deleted")],
                   status := 200 }) :=
  (C1_delete_status db1 1).1 ⟨row1, by simp [db1], rfl⟩

/-- C2, counterexample: the dumped object carries no `id` field — the
schema declares only `title`, `published_at` and `url` — so the output is
not the claimed id/title/published_at/url shape. -/
theorem C2_counterexample :
    "id" ∉ (NewsletterSchema.dump row1).keys := by decide

/-- C2 (amended): every serialized row — in GET /newsletters and in
single-object responses — has exactly the fields `title`, `published_at`
and `url` (whose object has exactly `self` and `collection`); neither
`body` nor `id` appears; and the collection GET dumps each row through
this same schema. -/
theorem C2_schema_fields (n : Newsletter) (db : DB) :
    (NewsletterSchema.dump n).keys = ["title", "published_at", "url"] ∧
    ((NewsletterSchema.dump n).get "url").map Json.keys
      = some ["self", "collection"] ∧
    "body" ∉ (NewsletterSchema.dump n).keys ∧
    "id" ∉ (NewsletterSchema.dump n).keys ∧
    (newsletters_get db).body = Json.jarr (db.rows.map NewsletterSchema.dump) :=
  ⟨rfl, rfl, by simp [NewsletterSchema.dump, Json.keys],
   by simp [NewsletterSchema.dump, Json.keys], rfl⟩

/-- C3, counterexample: the id is not immutable — a PATCH whose form names
`id` overwrites it.  Before the patch the table's ids are `[int 1]`;
afterwards the patched row's id is the literal string "99". -/
theorem C3_counterexample :
    db1.rows.map Newsletter.id = [Value.int 1] ∧
    (newsletter_by_id_patch db1 1 [("id", "99")]).1.rows.map Newsletter.id
      = [Value.str "99"] :=
  ⟨rfl, rfl⟩

/-- C3 (amended): the id assigned at create is unique (no existing row
carries the next counter value) and is stable across reads and across every
PATCH whose form does not name `id`; a PATCH naming `id` does change it
(see the counterexample). -/
theorem C3_id_unique_stable (db : DB) (i : Nat)
    (form : List (String × String))
    (hfresh : idsBelow db = true)
    (hform : ∀ p ∈ form, p.1 ≠ "id") :
    (∀ r ∈ db.rows, r.id ≠ Value.int db.nextId) ∧
    (newsletter_by_id_patch db i form).1.rows.map Newsletter.id
      = db.rows.map Newsletter.id := by
  constructor
  · intro r hr he
    simp only [idsBelow, List.all_eq_true] at hfresh
    have h' := hfresh r hr
    rw [he] at h'
    simp [Value.idOk] at h'
  · cases hq : firstById db.rows i with
    | none => simp [newsletter_by_id_patch, hq]
    | some r =>
        rcases firstById_split hq with ⟨pre, post, hrows, hpre, hupd, hrem⟩
        have hid : (patchApply r form).id = r.id := patchApply_id r form hform
        simp only [newsletter_by_id_patch, hq]
        rw [hupd (patchApply r form), hrows]
        simp [hid]

/-- C3 witness: a title-only PATCH on `db1` leaves the stored ids as they
were. -/
theorem C3_id_unique_stable_witness :
    (newsletter_by_id_patch db1 1 [("title", "X")]).1.rows.map Newsletter.id
      = db1.rows.map Newsletter.id :=
  (C3_id_unique_stable db1 1 [("title", "X")] (by decide) (by decide)).2

/-- C4: PATCH on an existing id assigns every submitted attribute by name
with no allow-list (`id` included), persists the mutated row in place of
the original, and returns the dumped row with status 200; with no
duplicate form keys, every named attribute afterwards holds exactly the
submitted value. -/
theorem C4_patch_mass_assignment (db : DB) (i : Nat)
    (form : List (String × String)) (r : Newsletter)
    (hr : firstById db.rows i = some r)
    (hnd : (form.map Prod.fst).Nodup) :
    newsletter_by_id_patch db i form =
      ({ db with rows := updateFirstById db.rows i (patchApply r form) },
       Except.ok { body := NewsletterSchema.dump (patchApply r form),
                   status := 200 }) ∧
    ∀ p ∈ form, (patchApply r form).getattr p.1 = some (Value.str p.2) :=
  ⟨by simp [newsletter_by_id_patch, hr], patchApply_getattr r form hnd⟩

/-- C4 witness: patching row 1 of `db1` with an `id` and a `body` field
succeeds and persists the mass-assigned row. -/
theorem C4_patch_mass_assignment_witness :
    newsletter_by_id_patch db1 1 [("id", "7"), ("body", "B")] =
      ({ db1 with rows := updateFirstById db1.rows 1 (patchApply row1 [("id", "7"), ("body", "B")]) },
       Except.ok { body := NewsletterSchema.dump (patchApply row1 [("id", "7"), ("body", "B")]),
                   status := 200 }) :=
  (C4_patch_mass_assignment db1 1 [("id", "7"), ("body", "B")] row1
    (by decide) (by decide)).1

/-- Rows whose ids all miss `i` are skipped by the lookup. -/
theorem firstById_append_of_none {rows : List Newsletter} {i : Nat}
    (h : ∀ r ∈ rows, r.id ≠ Value.int i) (rest : List Newsletter) :
    firstById (rows ++ rest) i = firstById rest i := by
  induction rows with
  | nil => rfl
  | cons a rs ih =>
      have ha : a.id ≠ Value.int i := h a (List.mem_cons_self _ _)
      rw [List.cons_append, firstById, if_neg ha]
      exact ih (fun r hr => h r (List.mem_cons_of_mem _ hr))

/-- The auto-increment counter value is fresh: no stored row carries it. -/
theorem idsBelow_fresh {db : DB} (h : idsBelow db = true) :
    ∀ r ∈ db.rows, r.id ≠ Value.int db.nextId := by
  intro r hr he
  simp only [idsBelow, List.all_eq_true] at h
  have h' := h r hr
  rw [he] at h'
  simp [Value.idOk] at h'

/-- C5: POST with a form missing `title` or `body` fails with the
framework's key-lookup error and creates no row — the table comes back
unchanged. -/
theorem C5_post_missing_field (db : DB) (now : Nat)
    (form : List (String × String))
    (h : form.lookup "title" = none ∨ form.lookup "body" = none) :
    newsletters_post db now form = (db, Except.error "BadRequestKeyError") := by
  unfold newsletters_post
  rcases h with h | h
  · rw [h]
  · rw [h]
    cases form.lookup "title" <;> rfl

/-- C5 witness: a POST carrying only `title` fails and leaves the table as
it was. -/
theorem C5_post_missing_field_witness :
    newsletters_post db1 0 [("title", "only")]
      = (db1, Except.error "BadRequestKeyError") :=
  C5_post_missing_field db1 0 [("title", "only")] (Or.inr rfl)

/-- C6: POST with `title` and `body` present appends a fresh row carrying
exactly the two caller-supplied fields, with `id` taken from the counter
and `published_at` from the server clock; the dumped row is returned with
201, and a subsequent read of the new id finds that same row (same title
and published_at), status 200. -/
theorem C6_post_create (db : DB) (now : Nat) (form : List (String × String))
    (t b : String)
    (ht : form.lookup "title" = some t)
    (hb : form.lookup "body" = some b)
    (hfresh : idsBelow db = true) :
    newsletters_post db now form =
      ({ rows := db.rows ++ [freshRow db now t b], nextId := db.nextId + 1 },
       Except.ok { body := NewsletterSchema.dump (freshRow db now t b),
                   status := 201 }) ∧
    (freshRow db now t b).id = Value.int db.nextId ∧
    (freshRow db now t b).title = Value.str t ∧
    (freshRow db now t b).body = Value.str b ∧
    (freshRow db now t b).published_at = Value.time now ∧
    newsletter_by_id_get (newsletters_post db now form).1 db.nextId =
      Except.ok { body := NewsletterSchema.dump (freshRow db now t b),
                  status := 200 } := by
  have hpost : newsletters_post db now form =
      ({ rows := db.rows ++ [freshRow db now t b], nextId := db.nextId + 1 },
       Except.ok { body := NewsletterSchema.dump (freshRow db now t b),
                   status := 201 }) := by
    unfold newsletters_post
    rw [ht, hb]
  refine ⟨hpost, rfl, rfl, rfl, rfl, ?_⟩
  rw [hpost]
  have hfind : firstById (db.rows ++ [freshRow db now t b]) db.nextId
      = some (freshRow db now t b) := by
    rw [firstById_append_of_none (idsBelow_fresh hfresh)]
    simp [firstById, freshRow]
  simp [newsletter_by_id_get, hfind]

/-- C6 witness: a concrete create against `db1` followed by a read of the
new id. -/
theorem C6_post_create_witness :
    newsletters_post db1 9 [("title", "t9"), ("body", "b9")] =
      ({ rows := db1.rows ++ [freshRow db1 9 "t9" "b9"], nextId := db1.nextId + 1 },
       Except.ok { body := NewsletterSchema.dump (freshRow db1 9 "t9" "b9"),
                   status := 201 }) ∧
    newsletter_by_id_get (newsletters_post db1 9 [("title", "t9"), ("body", "b9")]).1 db1.nextId =
      Except.ok { body := NewsletterSchema.dump (freshRow db1 9 "t9" "b9"),
                  status := 200 } :=
  ⟨(C6_post_create db1 9 [("title", "t9"), ("body", "b9")] "t9" "b9" rfl rfl (by decide)).1,
   (C6_post_create db1 9 [("title", "t9"), ("body", "b9")] "t9" "b9" rfl rfl (by decide)).2.2.2.2.2⟩

/-- C7: `published_at` is not settable on create — POST reads only the
`title` and `body` form fields, so removing any `published_at` field from
the form does not change the result, and the stored value is the server
clock — while a PATCH naming `published_at` overwrites it afterwards. -/
theorem C7_published_at (db : DB) (now : Nat) (form : List (String × String))
    (i : Nat) (r : Newsletter) (s t b : String)
    (hr : firstById db.rows i = some r) :
    newsletters_post db now form
      = newsletters_post db now (form.filter (fun p => p.1 != "published_at")) ∧
    (freshRow db now t b).published_at = Value.time now ∧
    (patchApply r [("published_at", s)]).published_at = Value.str s ∧
    (newsletter_by_id_patch db i [("published_at", s)]).1.rows
      = updateFirstById db.rows i (patchApply r [("published_at", s)]) := by
  refine ⟨?_, rfl, ?_, ?_⟩
  · unfold newsletters_post
    rw [lookup_filter_ne form "title" "published_at" (by decide),
        lookup_filter_ne form "body" "published_at" (by decide)]
  · show (patchLoop r [("published_at", s)] []).published_at = Value.str s
    simp [patchLoop, Newsletter.setattr]
  · simp [newsletter_by_id_patch, hr]

/-- C7 witness: a create whose form smuggles a `published_at` value gives
the same result as without it, and a later patch does overwrite the
timestamp. -/
theorem C7_published_at_witness :
    newsletters_post db1 4 [("published_at", "EVIL"), ("title", "T"), ("body", "B")]
      = newsletters_post db1 4
          ([("published_at", "EVIL"), ("title", "T"), ("body", "B")].filter
            (fun p => p.1 != "published_at")) ∧
    (freshRow db1 4 "T" "B").published_at = Value.time 4 ∧
    (patchApply row1 [("published_at", "later")]).published_at = Value.str "later" ∧
    (newsletter_by_id_patch db1 1 [("published_at", "later")]).1.rows
      = updateFirstById db1.rows 1 (patchApply row1 [("published_at", "later")]) :=
  C7_published_at db1 4 [("published_at", "EVIL"), ("title", "T"), ("body", "B")]
    1 row1 "later" "T" "B" rfl

/-- C8: a PATCH whose form holds only a title field rewrites exactly the
title of the first row matching the id — the persisted table is the
original with that row replaced by the same record with only `title`
changed (id, body, published_at and any extra attributes untouched), the
rows around it stay in place, and the dumped updated row comes back with
status 200. -/
theorem C8_patch_title_frame (db : DB) (i : Nat) (x : String) (r : Newsletter)
    (hr : firstById db.rows i = some r) :
    newsletter_by_id_patch db i [("title", x)] =
      ({ db with rows := updateFirstById db.rows i { r with title := Value.str x } },
       Except.ok { body := NewsletterSchema.dump { r with title := Value.str x },
                   status := 200 }) ∧
    (∃ pre post,
      db.rows = pre ++ r :: post ∧ (∀ q ∈ pre, q.id ≠ Value.int i) ∧
      (newsletter_by_id_patch db i [("title", x)]).1.rows
        = pre ++ { r with title := Value.str x } :: post) := by
  have happ : patchApply r [("title", x)] = { r with title := Value.str x } := by
    simp [patchApply, patchLoop, Newsletter.setattr]
  constructor
  · simp [newsletter_by_id_patch, hr, happ]
  · rcases firstById_split hr with ⟨pre, post, hrows, hpre, hupd, hrem⟩
    exact ⟨pre, post, hrows, hpre,
      by simp [newsletter_by_id_patch, hr, happ, hupd]⟩

/-- C8 witness: patching the second row of the two-row table rewrites only
its title; the first row is untouched. -/
theorem C8_patch_title_frame_witness :
    newsletter_by_id_patch db2 2 [("title", "X")] =
      ({ db2 with rows := updateFirstById db2.rows 2 { row2 with title := Value.str "X" } },
       Except.ok { body := NewsletterSchema.dump { row2 with title := Value.str "X" },
                   status := 200 }) :=
  (C8_patch_title_frame db2 2 "X" row2 rfl).1

/-- C9: one run of the seed utility leaves exactly 50 rows, and none of
the previously stored rows survives — every generated id sits at or above
the old counter while every stored integer id sits below it. -/
theorem C9_seed (db : DB) (fT fB : Nat → String) (now : Nat)
    (h : idsBelow db = true) :
    (seed db fT fB now).rows.length = 50 ∧
    ∀ r ∈ db.rows, r ∉ (seed db fT fB now).rows := by
  constructor
  · simp [seed]
  · intro r hr hmem
    simp only [seed, List.mem_map, List.mem_range] at hmem
    rcases hmem with ⟨j, hj, he⟩
    have hid : r.id = Value.int (db.nextId + j) := by rw [← he]
    simp only [idsBelow, List.all_eq_true] at h
    have h' := h r hr
    rw [hid] at h'
    simp [Value.idOk] at h'

/-- C9 witness: seeding over the one-row table yields 50 rows and drops
the prior row. -/
theorem C9_seed_witness :
    (seed db1 (fun j => toString j) (fun j => toString j) 0).rows.length = 50 ∧
    row1 ∉ (seed db1 (fun j => toString j) (fun j => toString j) 0).rows :=
  ⟨(C9_seed db1 (fun j => toString j) (fun j => toString j) 0 (by decide)).1,
   (C9_seed db1 (fun j => toString j) (fun j => toString j) 0 (by decide)).2
     row1 (by simp [db1])⟩

/-- C10: PATCH applies every submitted form value verbatim as the raw
submitted string — after the patch each named attribute holds `Value.str`
of exactly what was sent, with no coercion toward the column's declared
type (patching `id` or `published_at` stores the literal string) — and
that raw-valued row is what gets persisted. -/
theorem C10_patch_raw_strings (db : DB) (i : Nat)
    (form : List (String × String)) (r : Newsletter) (s : String)
    (hr : firstById db.rows i = some r)
    (hnd : (form.map Prod.fst).Nodup) :
    (newsletter_by_id_patch db i form).1.rows
      = updateFirstById db.rows i (patchApply r form) ∧
    (∀ p ∈ form, (patchApply r form).getattr p.1 = some (Value.str p.2)) ∧
    (patchApply r [("id", s)]).id = Value.str s ∧
    (patchApply r [("published_at", s)]).published_at = Value.str s := by
  refine ⟨by simp [newsletter_by_id_patch, hr],
          patchApply_getattr r form hnd, ?_, ?_⟩
  · simp [patchApply, patchLoop, Newsletter.setattr]
  · simp [patchApply, patchLoop, Newsletter.setattr]

/-- C10 witness: patching `published_at` with text that is no timestamp
persists the literal string, and `id` patches store the literal string
too. -/
theorem C10_patch_raw_strings_witness :
    (newsletter_by_id_patch db1 1 [("published_at", "not a date")]).1.rows
      = updateFirstById db1.rows 1 (patchApply row1 [("published_at", "not a date")]) ∧
    (patchApply row1 [("id", "zzz")]).id = Value.str "zzz" ∧
    (patchApply row1 [("published_at", "zzz")]).published_at = Value.str "zzz" :=
  ⟨(C10_patch_raw_strings db1 1 [("published_at", "not a date")] row1 "zzz"
      rfl (by decide)).1,
   (C10_patch_raw_strings db1 1 [("published_at", "not a date")] row1 "zzz"
      rfl (by decide)).2.2.1,
   (C10_patch_raw_strings db1 1 [("published_at", "not a date")] row1 "zzz"
      rfl (by decide)).2.2.2⟩

